import Mathlib

/-!
Verification of the jujupy2.0 core against its specification.

The definitions below are a shallow embedding of the repository's code:

* `until_timeout` embeds `acceptancetests/jujupy2.0/utility.py`, lines 52-79
  (the Deadline Counter).  Wall-clock samples (`datetime.now()` differences in
  fractional seconds) are modelled as rationals, and the clock sample taken
  inside `next` is passed as an explicit argument so that the clock is
  injectable.
* `subprocess.check_output` / `subprocess.call` embed the documented behaviour
  of the Python standard library functions as they are invoked at
  `client2.0.py` line 66, i.e. with three positional arguments.
* `JujuClient.juju`, `JujuClient.add_model`, `JujuClient.switch_model` and
  `JujuClient.init` embed `client2.0.py` lines 54-83.
* `JujuModel` embeds `client2.0.py` lines 122-125; the class defines neither
  `__eq__` nor `__hash__`, so Python compares instances by object identity,
  modelled here with an allocation counter `id`.
* `wait_for_port` embeds `acceptancetests/jujupy2.0/utility.py` lines 272-315
  (the Port Waiter); the network environment (address resolution and connect
  outcomes of each polling iteration) is an explicit parameter.
-/

/-- Deadline Counter state (`utility.py` lines 52-62): `timeout` is the number
of seconds to wait, `start` the time the counter was created at. -/
structure until_timeout where
  timeout : ℚ
  start   : ℚ
deriving DecidableEq, Repr

/-- One call of `until_timeout.next` (`utility.py` lines 74-79).  The sample
`self.now()` taken during the call is the argument `now`; `none` models the
`raise StopIteration`, `some r` models returning the remaining seconds. -/
def until_timeout.next (u : until_timeout) (now : ℚ) : Option ℚ :=
  let elapsed := now - u.start
  let remaining := u.timeout - elapsed
  if remaining ≤ 0 then none else some remaining

/-- Exceptions raised by the embedded client code.  `modelCreationFailed` is
modelled from the spec: the specification's error taxonomy names a
`ModelCreationFailed` condition for `add_model`, but the repository defines no
such exception class anywhere; the constructor exists only so that the
specification's claim about it can be stated and compared with what the code
actually raises. -/
inductive PyError
  | attributeError (attr : String)
  | typeError (msg : String)
  | calledProcessError (returncode : Int)
  | modelCreationFailed
deriving DecidableEq, Repr

/-- Python values that flow through the `juju` method: the `command` string,
the `args` tuple, the `int` returned by `subprocess.call` and the `bytes`
returned by `subprocess.check_output`. -/
inductive PyVal
  | int (n : Int)
  | str (s : String)
  | tuple (elems : List String)
  | bytes (s : String)
deriving DecidableEq, Repr

def PyVal.isInt : PyVal → Bool
  | .int _ => true
  | _ => false

/-- Result of actually executing a program: its exit code and captured
standard output.  A value of type `String → Subproc` describes what the
operating system would do for each program name, and is the environment
parameter of the subprocess embedding. -/
structure Subproc where
  exitcode : Int
  output   : String
deriving DecidableEq, Repr

/-- `subprocess.check_output` invoked with three positional arguments, as at
`client2.0.py` line 66 (`call('juju', command, args)`): the extra positional
arguments are forwarded to `Popen` as `(args, bufsize, executable)`, so the
command string lands in `Popen`'s `bufsize` parameter, and `Popen` rejects a
non-integer `bufsize` with `TypeError` before any process is spawned.  Were
`bufsize` an integer, the program `first` would be run; a nonzero exit raises
`CalledProcessError` carrying the return code, otherwise the captured standard
output is returned as `bytes`. -/
def subprocess.check_output (env : String → Subproc) (first : String)
    (bufsize : PyVal) (_executable : PyVal) : Except PyError PyVal :=
  if bufsize.isInt = false then
    Except.error (PyError.typeError "bufsize must be an integer")
  else
    let r := env first
    if r.exitcode = 0 then Except.ok (PyVal.bytes r.output)
    else Except.error (PyError.calledProcessError r.exitcode)

/-- `subprocess.call` invoked with three positional arguments, as at
`client2.0.py` line 66.  The same `Popen` forwarding applies; were `bufsize`
an integer, `call` would run the program and return its exit status as an
`int` — it raises no exception on a nonzero exit. -/
def subprocess.call (env : String → Subproc) (first : String)
    (bufsize : PyVal) (_executable : PyVal) : Except PyError PyVal :=
  if bufsize.isInt = false then
    Except.error (PyError.typeError "bufsize must be an integer")
  else Except.ok (PyVal.int (env first).exitcode)

/-- Python's `.decode('UTF-8')`: defined on `bytes`; any other receiver (for
example the `int` returned by `subprocess.call`) has no `decode` attribute and
raises `AttributeError`. -/
def pyDecode : PyVal → Except PyError String
  | PyVal.bytes s => Except.ok s
  | _ => Except.error (PyError.attributeError "decode")

/-- `JujuClient.juju` (`client2.0.py` lines 59-69).  `call` is bound to
`subprocess.check_output` or `subprocess.call` according to `get_output`; the
result of `call('juju', command, args)` then has `.decode('UTF-8')` applied.
The `except subprocess.CalledProcessError` clause logs and re-raises the same
exception; any other exception propagates uncaught — both branches are written
out for fidelity to the control flow. -/
def JujuClient.juju (env : String → Subproc) (command : String) (args : PyVal)
    (get_output : Bool) : Except PyError String :=
  let res := if get_output then subprocess.check_output env "juju" (PyVal.str command) args
             else subprocess.call env "juju" (PyVal.str command) args
  match res with
  | Except.ok v => pyDecode v
  | Except.error (PyError.calledProcessError rc) =>
      Except.error (PyError.calledProcessError rc)
  | Except.error e => Except.error e

/-- Model Handle (`client2.0.py` lines 122-125).  The class body only assigns
`self.name`; it defines neither `__eq__` nor `__hash__`, so Python falls back
to object identity for `==` and for set membership.  Identity is modelled by
the allocation number `id`: each `JujuModel(name)` call yields a value with a
fresh `id`. -/
structure JujuModel where
  id   : ℕ
  name : String
deriving DecidableEq, Repr

/-- Python `==` on two `JujuModel` instances: default object identity.  Two
values of the embedding denote the same Python object exactly when they are
equal (fresh allocation numbers keep distinct objects distinct). -/
def JujuModel.pyEq (a b : JujuModel) : Bool := a == b

/-- Python `set.add` on a set of `JujuModel` instances: because equality and
hashing are by identity, an element already present (same object) leaves the
set unchanged and any other object — even one with an equal `name` — is
inserted. -/
def pySetAdd (s : List JujuModel) (m : JujuModel) : List JujuModel :=
  if s.any (fun x => x.pyEq m) then s else s ++ [m]

/-- The mutable attributes of a `JujuClient` instance (`client2.0.py` lines
54-57), plus the allocation counter `nextId` that models the freshness of
`JujuModel(...)` object creation. -/
structure JujuClientState where
  name         : String
  models       : List JujuModel
  active_model : Option JujuModel
  nextId       : ℕ
deriving DecidableEq, Repr

/-- The specification's Cluster Client invariant: `active_model`, if set, is a
member of `models`. -/
def JujuClientState.Inv (st : JujuClientState) : Prop :=
  match st.active_model with
  | none => True
  | some a => a ∈ st.models

/-- Boolean form of `JujuClientState.Inv`, used to evaluate the invariant on
concrete states. -/
def JujuClientState.invB (st : JujuClientState) : Bool :=
  match st.active_model with
  | none => true
  | some a => decide (a ∈ st.models)

/-- `JujuClient.add_model` (`client2.0.py` lines 71-75).  The call
`self.juju('add-model', (model,))` is abstracted as the oracle `run` giving
the outcome of that call (the `juju` method itself is embedded separately as
`JujuClient.juju`).  The method first constructs `JujuModel(model)` (a fresh
object, modelled by `nextId`), then performs the call; if it raises, the
remaining statements do not run and the exception propagates with the state
unchanged; otherwise `self.models.add(new_model)` and
`self.active_model = new_model` run.  The returned pair is the state of the
instance after the call together with the propagated exception, if any. -/
def JujuClient.add_model (run : String → List String → Except PyError String)
    (st : JujuClientState) (model : String) : JujuClientState × Option PyError :=
  let new_model : JujuModel := ⟨st.nextId, model⟩
  match run "add-model" [model] with
  | Except.error e => (st, some e)
  | Except.ok _ =>
      ({ st with models := pySetAdd st.models new_model,
                 active_model := some new_model,
                 nextId := st.nextId + 1 }, none)

/-- `JujuClient.switch_model` (`client2.0.py` lines 77-83).  The method body
performs no membership check of any kind: it issues
`self.juju('switch', (target_model.name))` — note the source passes the bare
string, not a one-element tuple — abstracted as the oracle `run`, and then
assigns `self.active_model = target_model`.  If the call raises, the
assignment does not run and the state is unchanged. -/
def JujuClient.switch_model (run : String → List String → Except PyError String)
    (st : JujuClientState) (target_model : JujuModel) :
    JujuClientState × Option PyError :=
  match run "switch" [target_model.name] with
  | Except.error e => (st, some e)
  | Except.ok _ => ({ st with active_model := some target_model }, none)

/-- Attribute names defined on the `JujuClient` class body (`client2.0.py`
lines 52-119).  Note that `_get_controller_name` is not among them: no such
method is defined anywhere in the repository. -/
def jujuClientClassAttrs : List String :=
  ["__init__", "juju", "add_model", "switch_model", "deploy", "status",
   "dump_logs", "_get_active_model", "_get_current_models"]

/-- Python attribute lookup `self.<attr>` on a `JujuClient` instance whose
instance dictionary is still empty (as it is throughout `__init__` before any
assignment succeeds): the name is found in the class body or `AttributeError`
is raised. -/
def JujuClient.getattr (attr : String) : Except PyError Unit :=
  if jujuClientClassAttrs.contains attr then Except.ok ()
  else Except.error (PyError.attributeError attr)

/-- `JujuClient.__init__` (`client2.0.py` lines 54-57), statement by statement
in evaluation order.  Line 55 evaluates `self._get_controller_name()`: the
attribute lookup fails (`_get_controller_name` is defined nowhere on the
class), raising `AttributeError` before anything is assigned.  The later
statements are embedded after it: line 56 would evaluate
`set(self._get_current_models)` — `set()` over a bound method, a `TypeError`
since a method is not iterable — and line 57 would call `_get_active_model`,
whose body calls `self.juju()` without its required positional arguments,
another `TypeError`.  A successful run would produce a `JujuClientState`;
none can. -/
def JujuClient.init : Except PyError JujuClientState := do
  let _ ← JujuClient.getattr "_get_controller_name"
  let _ ← JujuClient.getattr "_get_current_models"
  let _ ← (Except.error (PyError.typeError "method object is not iterable") :
            Except PyError Unit)
  let _ ← JujuClient.getattr "_get_active_model"
  Except.error (PyError.typeError "juju missing required positional arguments")

/-- Outcome of `socket.getaddrinfo` in one polling iteration of
`wait_for_port` (`utility.py` lines 276-284): successful resolution to an
address, a `socket.error` whose errno is `EAI_NODATA`/`WSANO_DATA`, or a
`socket.error` with any other errno (which the code re-raises). -/
inductive ResolveResult
  | resolved (addr : String)
  | eaiNoData
  | fatalError
deriving DecidableEq, Repr

/-- Outcome of the `conn.connect(sockaddr)` attempt in one polling iteration
(`utility.py` lines 294-314): success, `socket.timeout`, a `socket.error`
whose errno is one of `ECONNREFUSED`/`ENETUNREACH`/`ETIMEDOUT`/`EHOSTUNREACH`
(`refused`), a `socket.error` with any other errno (re-raised), or a
`socket.gaierror` (printed; the loop then continues). -/
inductive ConnectResult
  | success
  | timedOut
  | refused
  | fatalSocketError
  | gaiError
deriving DecidableEq, Repr

/-- What the network does in one polling iteration: the resolution outcome
and, if a connection is attempted, its outcome. -/
structure PollObs where
  resolve : ResolveResult
  connect : ConnectResult
deriving DecidableEq, Repr

/-- Control-flow outcome of one iteration of the `wait_for_port` loop body:
return from the function, fall through to the next iteration, or re-raise a
socket error from resolution or connection. -/
inductive StepOutcome
  | ret
  | retry
  | raiseResolve
  | raiseConnect
deriving DecidableEq, Repr

/-- Final outcome of `wait_for_port`: normal return, `PortTimeoutError`, or a
re-raised socket error from resolution or connection. -/
inductive WaitResult
  | success
  | portTimeout
  | fatalResolve
  | fatalConnect
deriving DecidableEq, Repr

/-- One iteration of the `wait_for_port` loop body (`utility.py` lines
275-314), classified by its control flow.  `closed` is the target condition:
resolution no-data and a `0.0.0.0` address are treated as "port closed"
(return if `closed`, else continue); `socket.timeout` and the refused-class
errnos on connect likewise; a successful connect means "port open" (return if
not `closed`, else `sleep(1)` and continue); `gaierror` is printed and the
loop continues; any other socket error propagates. -/
def wait_step (closed : Bool) (o : PollObs) : StepOutcome :=
  match o.resolve with
  | ResolveResult.eaiNoData => if closed then StepOutcome.ret else StepOutcome.retry
  | ResolveResult.fatalError => StepOutcome.raiseResolve
  | ResolveResult.resolved addr =>
    if addr = "0.0.0.0" then (if closed then StepOutcome.ret else StepOutcome.retry)
    else
      match o.connect with
      | ConnectResult.timedOut => if closed then StepOutcome.ret else StepOutcome.retry
      | ConnectResult.refused => if closed then StepOutcome.ret else StepOutcome.retry
      | ConnectResult.fatalSocketError => StepOutcome.raiseConnect
      | ConnectResult.gaiError => StepOutcome.retry
      | ConnectResult.success => if closed then StepOutcome.retry else StepOutcome.ret

/-- The `for remaining in until_timeout(timeout):` loop of `wait_for_port`
(`utility.py` lines 274-315).  `clock k` is the wall-clock sample taken by the
Deadline Counter's `next` call of iteration `k`, and `obs k` the network
behaviour of iteration `k`.  When the Deadline Counter is exhausted the loop
ends and `PortTimeoutError` is raised.  The `max(remaining or 0, 5)` per-
attempt connect timeout of line 293 is computed for fidelity; it only
parameterises the connect attempt, whose outcome `obs` already records.  The
`fuel` argument bounds the number of iterations the embedding unfolds; `none`
means the bound was reached with the loop still running. -/
def wait_for_port_loop (closed : Bool) (u : until_timeout) (clock : ℕ → ℚ)
    (obs : ℕ → PollObs) (k : ℕ) : ℕ → Option WaitResult
  | 0 => none
  | fuel + 1 =>
    match u.next (clock k) with
    | none => some WaitResult.portTimeout
    | some remaining =>
      let _conn_timeout := max remaining 5
      match wait_step closed (obs k) with
      | StepOutcome.ret => some WaitResult.success
      | StepOutcome.raiseResolve => some WaitResult.fatalResolve
      | StepOutcome.raiseConnect => some WaitResult.fatalConnect
      | StepOutcome.retry => wait_for_port_loop closed u clock obs (k + 1) fuel

/-- `wait_for_port(host, port, closed, timeout)` (`utility.py` lines 272-315).
The host and port only influence the environment, which is abstracted as
`obs`; the Deadline Counter is constructed from `timeout` and the start sample
`start`, and drives the loop. -/
def wait_for_port (closed : Bool) (timeout start : ℚ) (clock : ℕ → ℚ)
    (obs : ℕ → PollObs) (fuel : ℕ) : Option WaitResult :=
  wait_for_port_loop closed (until_timeout.mk timeout start) clock obs 0 fuel

/-- Concrete fixture: a model handle with allocation number 0 and name `m1`. -/
def mOne : JujuModel := ⟨0, "m1"⟩

/-- Concrete fixture: a distinct model handle (allocation number 5) that is
not a member of `stOne.models`. -/
def hTwo : JujuModel := ⟨5, "m2"⟩

/-- Concrete fixture: a client state owning exactly the model `mOne`, which is
also the active model. -/
def stOne : JujuClientState :=
  { name := "ctrl", models := [mOne], active_model := some mOne, nextId := 1 }

/-- Oracle fixture: every `self.juju` call completes and returns an empty
string. -/
def runOk : String → List String → Except PyError String :=
  fun _ _ => Except.ok ""

/-- Oracle fixture: every `self.juju` call raises `CalledProcessError` with
return code 1. -/
def runFail : String → List String → Except PyError String :=
  fun _ _ => Except.error (PyError.calledProcessError 1)

/-- Clock fixture for the Port Waiter: the first sample is at time 0, every
later sample at time 100 (past a 30-second deadline). -/
def wClock : ℕ → ℚ := fun k => if k = 0 then 0 else 100

/-- Network fixture: every poll resolves to `10.0.0.1` and the connection is
refused. -/
def wObsA : ℕ → PollObs :=
  fun _ => ⟨ResolveResult.resolved "10.0.0.1", ConnectResult.refused⟩

/-- Network fixture: every poll resolves to `10.0.0.1` and the connection
succeeds. -/
def wObsB : ℕ → PollObs :=
  fun _ => ⟨ResolveResult.resolved "10.0.0.1", ConnectResult.success⟩

/-- C1: for every `timeout > 0` and start time `T`, a call of
`until_timeout.next` returns a strictly positive remaining value when
`now - T < timeout`, signals exhaustion (`StopIteration`, modelled as `none`)
once `now - T ≥ timeout`, and never returns a zero or negative value. -/
theorem until_timeout_next_correct (timeout start now : ℚ) (hpos : 0 < timeout) :
    (now - start < timeout →
      ∃ r, (until_timeout.mk timeout start).next now = some r ∧ 0 < r) ∧
    (timeout ≤ now - start → (until_timeout.mk timeout start).next now = none) ∧
    (∀ r, (until_timeout.mk timeout start).next now = some r → 0 < r) := by
  refine ⟨?_, ?_, ?_⟩
  · intro h
    refine ⟨timeout - (now - start), ?_, by linarith⟩
    simp only [until_timeout.next]
    rw [if_neg (not_le.mpr (by linarith))]
  · intro h
    simp only [until_timeout.next]
    rw [if_pos (by linarith)]
  · intro r hr
    simp only [until_timeout.next] at hr
    by_cases hc : timeout - (now - start) ≤ 0
    · rw [if_pos hc] at hr
      exact absurd hr (by simp)
    · rw [if_neg hc] at hr
      obtain rfl := Option.some.inj hr
      linarith

/-- Witness for C1 at `timeout = 10`, `start = 0`, `now = 3`. -/
theorem until_timeout_next_correct_witness :
    (0 : ℚ) < 10 ∧
    (((3 : ℚ) - 0 < 10 →
        ∃ r, (until_timeout.mk 10 0).next 3 = some r ∧ 0 < r) ∧
      ((10 : ℚ) ≤ 3 - 0 → (until_timeout.mk 10 0).next 3 = none) ∧
      (∀ r, (until_timeout.mk 10 0).next 3 = some r → 0 < r)) :=
  ⟨by norm_num, until_timeout_next_correct 10 0 3 (by norm_num)⟩

/-- C2: two successful `next` calls whose clock samples strictly advance
return strictly decreasing remaining values. -/
theorem until_timeout_next_strict_anti (u : until_timeout) (t₁ t₂ r₁ r₂ : ℚ)
    (hadv : t₁ < t₂) (h₁ : u.next t₁ = some r₁) (h₂ : u.next t₂ = some r₂) :
    r₂ < r₁ := by
  simp only [until_timeout.next] at h₁ h₂
  by_cases hc₁ : u.timeout - (t₁ - u.start) ≤ 0
  · rw [if_pos hc₁] at h₁
    exact absurd h₁ (by simp)
  · rw [if_neg hc₁] at h₁
    by_cases hc₂ : u.timeout - (t₂ - u.start) ≤ 0
    · rw [if_pos hc₂] at h₂
      exact absurd h₂ (by simp)
    · rw [if_neg hc₂] at h₂
      obtain rfl := Option.some.inj h₁
      obtain rfl := Option.some.inj h₂
      linarith

/-- Witness for C2 with the counter `⟨10, 0⟩` sampled at times 1 and 2. -/
theorem until_timeout_next_strict_anti_witness :
    (1 : ℚ) < 2 ∧
    (until_timeout.mk 10 0).next 1 = some 9 ∧
    (until_timeout.mk 10 0).next 2 = some 8 ∧
    (8 : ℚ) < 9 :=
  ⟨by norm_num, by norm_num [until_timeout.next], by norm_num [until_timeout.next],
    until_timeout_next_strict_anti (until_timeout.mk 10 0) 1 2 9 8 (by norm_num)
      (by norm_num [until_timeout.next]) (by norm_num [until_timeout.next])⟩

/-- C3: what `JujuClient.juju` actually does, in both modes and for every
command, argument tuple and subprocess environment: `call('juju', command,
args)` hands the command string to `Popen` as its `bufsize` parameter, so the
call raises `TypeError` before any subprocess runs.  Capture mode therefore
can never return captured output, and neither mode ever raises a failure
carrying the exit status. -/
theorem juju_always_raises_typeerror (env : String → Subproc) (command : String)
    (args : PyVal) (get_output : Bool) :
    JujuClient.juju env command args get_output
      = Except.error (PyError.typeError "bufsize must be an integer") := by
  cases get_output <;>
    simp [JujuClient.juju, subprocess.check_output, subprocess.call, PyVal.isInt]

/-- C4 counterexample: at the concrete state `stOne` with an `add-model`
command that fails with exit status 1, `add_model` propagates the
`CalledProcessError` itself — it does not raise the specification's
`ModelCreationFailed` condition (no such exception exists in the repository) —
although the state is indeed left unchanged. -/
theorem add_model_raises_underlying_error :
    JujuClient.add_model runFail stOne "m2"
        = (stOne, some (PyError.calledProcessError 1)) ∧
    some (PyError.calledProcessError 1) ≠ some PyError.modelCreationFailed := by
  constructor
  · rfl
  · decide

/-- C4 amended: if the underlying `add-model` command fails, `add_model`
propagates that same exception unchanged (there is no `ModelCreationFailed`)
and the local state — `models` and `active_model` included — is exactly as
before the call: no partial insert. -/
theorem add_model_failure_state_unchanged
    (run : String → List String → Except PyError String)
    (st : JujuClientState) (m : String) (e : PyError)
    (hrun : run "add-model" [m] = Except.error e) :
    JujuClient.add_model run st m = (st, some e) := by
  simp [JujuClient.add_model, hrun]

/-- Witness for the amended C4 at `stOne` with the failing oracle `runFail`. -/
theorem add_model_failure_state_unchanged_witness :
    runFail "add-model" ["m2"] = Except.error (PyError.calledProcessError 1) ∧
    JujuClient.add_model runFail stOne "m2"
      = (stOne, some (PyError.calledProcessError 1)) :=
  ⟨rfl, add_model_failure_state_unchanged runFail stOne "m2"
    (PyError.calledProcessError 1) rfl⟩

/-- C5 counterexample: `hTwo` is not a member of `stOne.models`, yet
`switch_model` completes normally (no exception) and sets `active_model` to
`hTwo` — the call is not rejected and `active_model` is mutated. -/
theorem switch_model_no_precondition_check :
    (JujuClient.switch_model runOk stOne hTwo).2 = none ∧
    (JujuClient.switch_model runOk stOne hTwo).1.active_model = some hTwo ∧
    hTwo ∉ stOne.models ∧
    stOne.active_model ≠ some hTwo := by
  refine ⟨rfl, rfl, by decide, by decide⟩

/-- C5 amended: `switch_model` performs no membership check at all.  For every
state and every handle — member of `models` or not — if the switch command
succeeds the call completes normally and sets `active_model` to the handle;
membership of the target in `models` is an unchecked caller obligation. -/
theorem switch_model_unchecked
    (run : String → List String → Except PyError String)
    (st : JujuClientState) (h : JujuModel) (out : String)
    (hrun : run "switch" [h.name] = Except.ok out) :
    JujuClient.switch_model run st h
      = ({ st with active_model := some h }, none) := by
  simp [JujuClient.switch_model, hrun]

/-- Witness for the amended C5: switching `stOne` to the non-member `hTwo`
with a succeeding oracle. -/
theorem switch_model_unchecked_witness :
    runOk "switch" [hTwo.name] = Except.ok "" ∧
    JujuClient.switch_model runOk stOne hTwo
      = ({ stOne with active_model := some hTwo }, none) :=
  ⟨rfl, switch_model_unchecked runOk stOne hTwo "" rfl⟩

/-- C6 counterexample: the state `stOne` satisfies the invariant
(`active_model ∈ models`), but `switch_model` to the non-member `hTwo`
produces a state that violates it — so not every mutating operation preserves
the invariant. -/
theorem switch_model_breaks_invariant :
    stOne.invB = true ∧
    (JujuClient.switch_model runOk stOne hTwo).1.invB = false := by
  refine ⟨by decide, by decide⟩

/-- C6 amended: the invariant `active_model ∈ models` is preserved by
`add_model` (on success and on failure alike) and by `switch_model` whenever
the target handle is a member of `models`; `switch_model` with a non-member
target is the one mutation that can break it. -/
theorem client_invariant_preserved
    (run : String → List String → Except PyError String)
    (st : JujuClientState) (m : String) (h : JujuModel)
    (hinv : st.Inv) :
    (JujuClient.add_model run st m).1.Inv ∧
    (h ∈ st.models → (JujuClient.switch_model run st h).1.Inv) := by
  constructor
  · unfold JujuClient.add_model
    cases hr : run "add-model" [m] with
    | error e => simpa [hr] using hinv
    | ok s =>
      simp only [hr, JujuClientState.Inv, pySetAdd]
      by_cases hmem : st.models.any (fun x => x.pyEq ⟨st.nextId, m⟩)
      · rw [if_pos hmem]
        rcases List.any_eq_true.mp hmem with ⟨x, hx, hbeq⟩
        have hx' : x = ⟨st.nextId, m⟩ := by
          simpa [JujuModel.pyEq] using hbeq
        simpa [← hx'] using hx
      · rw [if_neg hmem]
        exact List.mem_append_right _ (List.mem_singleton.mpr rfl)
  · intro hmem
    unfold JujuClient.switch_model
    cases hr : run "switch" [h.name] with
    | error e => simpa using hinv
    | ok s => simpa [JujuClientState.Inv] using hmem

/-- Witness for the amended C6 at `stOne`, adding `m2` and switching to the
member `mOne`. -/
theorem client_invariant_preserved_witness :
    stOne.Inv ∧
    (JujuClient.add_model runOk stOne "m2").1.Inv ∧
    (mOne ∈ stOne.models → (JujuClient.switch_model runOk stOne mOne).1.Inv) :=
  ⟨by simp [JujuClientState.Inv, stOne],
    (client_invariant_preserved runOk stOne "m2" mOne
      (by simp [JujuClientState.Inv, stOne])).1,
    (client_invariant_preserved runOk stOne "m2" mOne
      (by simp [JujuClientState.Inv, stOne])).2⟩

/-- C7: when the underlying command succeeds, `add_model` completes without
exception, `models` has exactly one more element than before (the freshly
allocated handle is a new object, so the identity-keyed set always grows),
every prior element is still present, and the new active model carries the
requested name.  The freshness hypothesis states that every already-owned
handle was allocated before the counter's current value, which every
allocation below maintains. -/
theorem add_model_success_postcondition
    (run : String → List String → Except PyError String)
    (st : JujuClientState) (m out : String)
    (hrun : run "add-model" [m] = Except.ok out)
    (hfresh : ∀ x ∈ st.models, x.id < st.nextId) :
    (JujuClient.add_model run st m).2 = none ∧
    (JujuClient.add_model run st m).1.models.length = st.models.length + 1 ∧
    (∀ x ∈ st.models, x ∈ (JujuClient.add_model run st m).1.models) ∧
    (∃ a, (JujuClient.add_model run st m).1.active_model = some a ∧ a.name = m) := by
  have hnotmem : st.models.any (fun x => x.pyEq ⟨st.nextId, m⟩) = false := by
    rw [List.any_eq_false]
    intro x hx
    have hlt := hfresh x hx
    simp only [JujuModel.pyEq, beq_iff_eq]
    intro hcontra
    rw [hcontra] at hlt
    exact absurd hlt (lt_irrefl _)
  unfold JujuClient.add_model
  rw [hrun]
  refine ⟨rfl, ?_, ?_, ⟨st.nextId, m⟩, rfl, rfl⟩
  · simp [pySetAdd, hnotmem]
  · intro x hx
    simp only [pySetAdd, hnotmem, Bool.false_eq_true, if_false]
    exact List.mem_append_left _ hx

/-- Witness for C7: adding `m2` to `stOne` with a succeeding oracle. -/
theorem add_model_success_postcondition_witness :
    runOk "add-model" ["m2"] = Except.ok "" ∧
    (∀ x ∈ stOne.models, x.id < stOne.nextId) ∧
    ((JujuClient.add_model runOk stOne "m2").2 = none ∧
      (JujuClient.add_model runOk stOne "m2").1.models.length
        = stOne.models.length + 1 ∧
      (∀ x ∈ stOne.models, x ∈ (JujuClient.add_model runOk stOne "m2").1.models) ∧
      (∃ a, (JujuClient.add_model runOk stOne "m2").1.active_model = some a ∧
        a.name = "m2")) :=
  ⟨rfl, by decide,
    add_model_success_postcondition runOk stOne "m2" "" rfl (by decide)⟩

/-- C8 counterexample: two handles with equal names but distinct identities
are not equal under Python's default `==` (no `__eq__` is defined), and both
fit into the identity-keyed `models` set at once — equality and set membership
are not determined by `name`. -/
theorem jujumodel_equality_not_by_name :
    (JujuModel.mk 0 "m1").name = (JujuModel.mk 1 "m1").name ∧
    (JujuModel.mk 0 "m1").pyEq (JujuModel.mk 1 "m1") = false ∧
    (pySetAdd (pySetAdd [] (JujuModel.mk 0 "m1")) (JujuModel.mk 1 "m1")).length
      = 2 := by
  refine ⟨rfl, by decide, by decide⟩

/-- C8 amended: `JujuModel` equality is by object identity, not by name —
equal handles do have equal names, but handles with equal names need not be
equal, so one `models` set can hold several handles sharing a name.  (No code
in the repository reassigns `name` after construction.) -/
theorem jujumodel_equality_by_identity :
    (∀ a b : JujuModel, a.pyEq b = true → a.name = b.name) ∧
    ¬ (∀ a b : JujuModel, a.name = b.name → a.pyEq b = true) := by
  constructor
  · intro a b hab
    have : a = b := by simpa [JujuModel.pyEq] using hab
    rw [this]
  · intro hall
    have := hall (JujuModel.mk 0 "m1") (JujuModel.mk 1 "m1") rfl
    simpa [JujuModel.pyEq] using this

/-- Witness for the amended C8: applying the identity half to the handle
`mOne` compared with itself. -/
theorem jujumodel_equality_by_identity_witness :
    mOne.pyEq mOne = true ∧ mOne.name = mOne.name :=
  ⟨by decide, jujumodel_equality_by_identity.1 mOne mOne (by decide)⟩

/-- C10 counterexample: `__init__` fails at its first statement — the lookup
of the undefined `_get_controller_name` — with `AttributeError`; it never
reaches, let alone evaluates, `set(self._get_current_models)`, so the failure
is not the `TypeError` the claim attributes it to. -/
theorem init_fails_before_set_evaluation :
    JujuClient.init = Except.error (PyError.attributeError "_get_controller_name") ∧
    JujuClient.init ≠ Except.error (PyError.typeError "method object is not iterable") := by
  refine ⟨rfl, ?_⟩
  intro hcontra
  rw [show JujuClient.init
        = Except.error (PyError.attributeError "_get_controller_name") from rfl] at hcontra
  simp at hcontra

/-- C10 amended: every invocation of the constructor raises before any client
state is established — the first statement of `__init__` calls
`self._get_controller_name()`, which is defined nowhere on the class, so
`AttributeError` is raised there (the non-iterable `set(...)` argument and the
mis-called `_get_active_model` are further defects on the never-reached later
lines); no `JujuClient` instance can ever be constructed through `__init__`. -/
theorem init_always_raises_attributeerror :
    JujuClient.init = Except.error (PyError.attributeError "_get_controller_name") := rfl

/-- Helper for C9: if every polling iteration falls through to the next one,
the loop ends at the first exhausted Deadline Counter sample and raises
`PortTimeoutError`. -/
theorem wait_loop_timeout_of_retries (closed : Bool) (u : until_timeout)
    (clock : ℕ → ℚ) (obs : ℕ → PollObs) :
    ∀ N k, (∀ j, wait_step closed (obs j) = StepOutcome.retry) →
      u.next (clock (k + N)) = none →
      wait_for_port_loop closed u clock obs k (N + 1) = some WaitResult.portTimeout := by
  intro N
  induction N with
  | zero =>
    intro k hobs hnone
    rw [Nat.add_zero] at hnone
    simp [wait_for_port_loop, hnone]
  | succ n ih =>
    intro k hobs hnone
    cases hcl : u.next (clock k) with
    | none => simp [wait_for_port_loop, hcl]
    | some r =>
      have hstep := hobs k
      have harith : k + 1 + n = k + (n + 1) := by omega
      have hnext : u.next (clock (k + 1 + n)) = none := by rw [harith]; exact hnone
      simp only [wait_for_port_loop, hcl, hstep]
      exact ih (k + 1) hobs hnext

/-- Helper for C9: a first polling iteration inside the deadline whose body
returns ends the wait successfully at once. -/
theorem wait_loop_first_ret (closed : Bool) (u : until_timeout)
    (clock : ℕ → ℚ) (obs : ℕ → PollObs) (fuel : ℕ) (r : ℚ)
    (h0 : u.next (clock 0) = some r)
    (hret : wait_step closed (obs 0) = StepOutcome.ret) :
    wait_for_port_loop closed u clock obs 0 (fuel + 1) = some WaitResult.success := by
  simp [wait_for_port_loop, h0, hret]

/-- C9: first, if every observation of the network keeps the loop polling
(the target condition is never observed and nothing fatal occurs) and the
Deadline Counter's sample at iteration `N` is exhausted, `wait_for_port`
raises `PortTimeoutError`; second, with `closed = False`, a port whose address
resolves (not to `0.0.0.0`) and whose connection attempt succeeds on the first
poll — made while the deadline has not passed — makes `wait_for_port` return
successfully on that first poll. -/
theorem wait_for_port_correct (timeout start : ℚ) (clock : ℕ → ℚ)
    (closed : Bool) (N : ℕ) :
    (∀ obs : ℕ → PollObs,
      (∀ j, wait_step closed (obs j) = StepOutcome.retry) →
      (until_timeout.mk timeout start).next (clock N) = none →
      wait_for_port closed timeout start clock obs (N + 1)
        = some WaitResult.portTimeout) ∧
    (∀ obs : ℕ → PollObs, ∀ addr r,
      (obs 0).resolve = ResolveResult.resolved addr →
      addr ≠ "0.0.0.0" →
      (obs 0).connect = ConnectResult.success →
      (until_timeout.mk timeout start).next (clock 0) = some r →
      wait_for_port false timeout start clock obs (N + 1)
        = some WaitResult.success) := by
  constructor
  · intro obs hobs hN
    unfold wait_for_port
    exact wait_loop_timeout_of_retries closed (until_timeout.mk timeout start)
      clock obs N 0 hobs (by simpa using hN)
  · intro obs addr r hres haddr hconn h0
    unfold wait_for_port
    refine wait_loop_first_ret false (until_timeout.mk timeout start)
      clock obs N r h0 ?_
    simp [wait_step, hres, haddr, hconn]

/-- Witness for C9 at a 30-second deadline started at time 0 with the clock
`wClock` (first sample at 0, all later samples at 100): under always-refused
connections (`wObsA`) the wait times out, and under an immediately accepting
port (`wObsB`) it returns successfully on the first poll. -/
theorem wait_for_port_correct_witness :
    wait_for_port false 30 0 wClock wObsA 2 = some WaitResult.portTimeout ∧
    wait_for_port false 30 0 wClock wObsB 2 = some WaitResult.success :=
  ⟨(wait_for_port_correct 30 0 wClock false 1).1 wObsA (fun _ => rfl)
      (by norm_num [until_timeout.next, wClock]),
    (wait_for_port_correct 30 0 wClock false 1).2 wObsB "10.0.0.1" 30 rfl
      (by decide) rfl (by norm_num [until_timeout.next, wClock])⟩
